import Mathlib

/-!
Verification development for the `PyKineMod` simulation engine
(`src/PyKineMod/simulate.py`): a shallow embedding of the `Simulate`
class (construction, rate-law binding, the mole-balance right-hand side
and `run_simulation`) over ℚ, together with theorems settling the
specification claims.

Conventions of the embedding:
* numpy arrays of the dynamic (value-level) code become Mathlib matrices
  and `Fin`-indexed functions over ℚ; machine floats are modelled as exact
  rationals.
* The stoichiometric matrix `N` is stored reactions × species, matching
  the code's uses `self.N.T @ rate` (an S-vector) in `mole_balance`.
* External primitives that are not part of this repository (scipy's
  `odeint`, numpy's `pinv` and `multivariate_normal`) enter as explicit
  functional parameters; the random-number generator is threaded as
  explicit state so that its consumption is observable.
* Construction-time shape checking works on untyped array values
  (`Arr`), since the checks of `Simulate.__init__` are dynamic shape
  comparisons; errors become values of an `Except`.
-/

namespace PyKineMod

/-- The engine state after `Simulate.__init__` has succeeded and rate laws
have been bound: stoichiometry `N` (reactions × species), molecular weight
matrix `Mw` (S × S), volume function `V`, derived inlet matrix `Win`
(S × P), inlet/outlet flow functions `uin`/`uout`, initial moles `n0`, and
the bound rate laws (one per reaction, concentration vector → rate). -/
structure Engine (S R P : ℕ) where
  N : Matrix (Fin R) (Fin S) ℚ
  Mw : Matrix (Fin S) (Fin S) ℚ
  V : ℚ → ℚ
  Win : Matrix (Fin S) (Fin P) ℚ
  uin : ℚ → Fin P → ℚ
  uout : ℚ → ℚ
  n0 : Fin S → ℚ
  ratelaws : Fin R → (Fin S → ℚ) → ℚ

/-- Embedding of `Simulate.add_ratelaws`: bind each rate-law definition to its
rate-constant slice `K[idx]` (the code's `partial(ratelaw, K=K[idx])`;
a structured `RateLaw` object and a bare callable are normalized to the
same bound shape). -/
def add_ratelaws {S R : ℕ} (laws : Fin R → (Fin S → ℚ) → ℚ → ℚ)
    (K : Fin R → ℚ) : Fin R → (Fin S → ℚ) → ℚ :=
  fun idx c => laws idx c (K idx)

/-- The quantity `m = np.sum(self.Mw @ y)`: the current total mass at state `y`. -/
def totalMass {S R P : ℕ} (e : Engine S R P) (y : Fin S → ℚ) : ℚ :=
  ∑ i, e.Mw.mulVec y i

/-- Embedding of `Simulate.mole_balance(y, t)`: the ODE right-hand side, translated
line by line —
`c = y / self.V(t)`;
`rate = np.array([ratelaw(c) for ratelaw in self.ratelaws])`;
`m = np.sum(self.Mw @ y)`;
`dydt = (self.N.T @ rate * self.V(t)) + (self.Win @ self.uin(t)) - (self.uout(t) * y / m)`. -/
def mole_balance {S R P : ℕ} (e : Engine S R P) (y : Fin S → ℚ) (t : ℚ) :
    Fin S → ℚ :=
  let c : Fin S → ℚ := fun i => y i / e.V t
  let rate : Fin R → ℚ := fun j => e.ratelaws j c
  let m : ℚ := ∑ i, e.Mw.mulVec y i
  fun i =>
    e.N.transpose.mulVec rate i * e.V t
      + e.Win.mulVec (e.uin t) i
      - e.uout t * y i / m

/-- Variant of `mole_balance` with the one fallible operation made explicit: the
division of the outlet term by the current total mass `m` is the single
unguarded division by a state-dependent quantity in the source; here it
is checked, so that `m = 0` surfaces as an error value instead of the
silent junk value of total division. -/
def mole_balanceE {S R P : ℕ} (e : Engine S R P) (y : Fin S → ℚ) (t : ℚ) :
    Except String (Fin S → ℚ) :=
  let c : Fin S → ℚ := fun i => y i / e.V t
  let rate : Fin R → ℚ := fun j => e.ratelaws j c
  let m : ℚ := ∑ i, e.Mw.mulVec y i
  if m = 0 then
    .error "division by zero: outlet term uout(t) * y / m with zero total mass"
  else
    .ok (fun i =>
      e.N.transpose.mulVec rate i * e.V t
        + e.Win.mulVec (e.uin t) i
        - e.uout t * y i / m)

/-- C1: after rate laws are bound (via `add_ratelaws`), `mole_balance(y, t)`
returns exactly `Nᵗ·r·V(t) + Win·uin(t) − uout(t)·y/m`, where `r` is the
vector of all bound rate laws evaluated at the concentration
`c = y / V(t)` and `m = sum(Mw @ y)` is the current total mass. -/
theorem mole_balance_formula {S R P : ℕ} (e : Engine S R P)
    (laws : Fin R → (Fin S → ℚ) → ℚ → ℚ) (K : Fin R → ℚ)
    (y : Fin S → ℚ) (t : ℚ) :
    mole_balance { e with ratelaws := add_ratelaws laws K } y t
      = fun i =>
        e.N.transpose.mulVec
            (fun j => laws j (fun k => y k / e.V t) (K j)) i * e.V t
          + e.Win.mulVec (e.uin t) i
          - e.uout t * y i / totalMass e y := rfl

/-- C9: the division by the total mass `m = sum(Mw @ y)` in the outlet
term of `mole_balance` is unguarded: whenever `m ≠ 0` the evaluation is
well-defined and agrees with the mole-balance formula, and when `m = 0`
the outlet term divides by zero — a failure the code neither catches nor
recovers from. -/
theorem mole_balance_mass_guard {S R P : ℕ} (e : Engine S R P)
    (y : Fin S → ℚ) (t : ℚ) :
    (totalMass e y ≠ 0 → mole_balanceE e y t = .ok (mole_balance e y t))
    ∧ (totalMass e y = 0 → mole_balanceE e y t =
        .error "division by zero: outlet term uout(t) * y / m with zero total mass") := by
  unfold totalMass mole_balanceE mole_balance
  constructor <;> intro h <;> simp [h]

/-- A concrete one-species, one-reaction, one-stream engine used to
instantiate theorems with hypotheses: first-order decay with unit
molecular weight, unit volume and unit outlet flow. -/
def engine1 : Engine 1 1 1 where
  N := fun _ _ => -1
  Mw := fun _ _ => 1
  V := fun _ => 1
  Win := fun _ _ => 0
  uin := fun _ _ => 0
  uout := fun _ => 1
  n0 := fun _ => 1
  ratelaws := fun _ c => c 0

/-- Witness for C9 at `engine1`: at the state `y = [1]` the total mass is
nonzero and the checked evaluation succeeds; at `y = [0]` the total mass
is zero and the outlet division fails. -/
theorem mole_balance_mass_guard_witness :
    (totalMass engine1 (fun _ => 1) ≠ 0
      ∧ mole_balanceE engine1 (fun _ => 1) 0
          = .ok (mole_balance engine1 (fun _ => 1) 0))
    ∧ (totalMass engine1 (fun _ => 0) = 0
      ∧ mole_balanceE engine1 (fun _ => 0) 0 =
          .error "division by zero: outlet term uout(t) * y / m with zero total mass") := by
  have h1 : totalMass engine1 (fun _ => 1) ≠ 0 := by
    simp [totalMass, engine1, Matrix.mulVec, Matrix.dotProduct,
      Fin.sum_univ_one]
  have h0 : totalMass engine1 (fun _ => 0) = 0 := by
    simp [totalMass, engine1, Matrix.mulVec, Matrix.dotProduct,
      Fin.sum_univ_one]
  exact ⟨⟨h1, (mole_balance_mass_guard engine1 (fun _ => 1) 0).1 h1⟩,
    ⟨h0, (mole_balance_mass_guard engine1 (fun _ => 0) 0).2 h0⟩⟩

/-- The global numpy random-number-generator state, threaded explicitly:
`counter` counts how many sampler invocations have been consumed so far,
and `draws k i j` is the (i, j) standard-normal draw of invocation `k`. -/
structure RandState where
  counter : ℕ
  draws : ℕ → ℕ → ℕ → ℚ

/-- Modelled from numpy: `np.random.multivariate_normal(mean, cov, size=n)`
for the diagonal covariance `cov = std²` built by `run_simulation` returns
`mean + √cov · z = mean + |std| · z`, with `z` the standard-normal draws of
one sampler invocation; the invocation advances the generator state. -/
def multivariate_normal_diag {S : ℕ} (mean : Fin S → ℚ) (std : Fin S → ℚ)
    (n : ℕ) (rng : RandState) : (Fin n → Fin S → ℚ) × RandState :=
  (fun i j => mean j + |std j| * rng.draws rng.counter i.val j.val,
    { rng with counter := rng.counter + 1 })

/-- Model of `np.ndarray.max` along an axis: maximum of a nonempty sample list
(numpy rejects an empty one; the `[]` branch is never meaningful). -/
def npMax (l : List ℚ) : ℚ :=
  match l with
  | [] => 0
  | x :: xs => xs.foldl max x

/-- The results mapping returned by `Simulate.run_simulation`: keys
`moles`, `reaction_rate`, `flow_rate`, `xr`, `xin`, `xout`, all with the
timestep dimension first. -/
structure RunResult (T S R Kq Ks Km : ℕ) where
  moles : Fin T → Fin S → ℚ
  reaction_rate : Fin T → Fin R → ℚ
  flow_rate : Fin T → Fin S → ℚ
  xr : Fin T → Fin Ks → ℚ
  xin : Fin T → Fin Km → ℚ
  xout : Fin T → Fin Kq → ℚ

/-- Embedding of `Simulate.run_simulation(time, alpha)`, translated line by line.
External collaborators enter as parameters: `odeint` is scipy's
deterministic initial-value solver, and `q0T`, `S0T`, `M0T` are the
decomposition matrices produced by `compute_matrices(N, Win, n0)`
(`extents.py`; modelled from the spec as a pure function of the engine's
`N`, `Win`, `n0`, so its outputs are fixed parameters here — `Q0T` is
returned by it but never used by `run_simulation`). The steps:
`sol = odeint(mole_balance, n0, time)`;
`noise_std = (alpha/100) * diag(max(sol, axis=0))`; `noise_cov = noise_std**2`;
`noise = multivariate_normal(0, noise_cov, size=nSamples)`; `sol += noise`;
`reaction_rate = [ratelaw(sol.T / V(time)) ...]` (per-timestep columns);
`flow_rate = (N.T @ reaction_rate * V(time)).T`;
`xr = sol @ S0T.T`; `xin = sol @ M0T.T`; `lamda = sol @ q0T.T`;
result keys as in the returned dict, with `xout = 1 - lamda`. -/
def run_simulation {S R P T Kq Ks Km : ℕ} (e : Engine S R P)
    (odeint : ((Fin S → ℚ) → ℚ → (Fin S → ℚ)) → (Fin S → ℚ) →
      (Fin T → ℚ) → (Fin T → Fin S → ℚ))
    (q0T : Matrix (Fin Kq) (Fin S) ℚ) (S0T : Matrix (Fin Ks) (Fin S) ℚ)
    (M0T : Matrix (Fin Km) (Fin S) ℚ)
    (time : Fin T → ℚ) (alpha : ℚ) (rng : RandState) :
    RunResult T S R Kq Ks Km × RandState :=
  let sol : Fin T → Fin S → ℚ := odeint (mole_balance e) e.n0 time
  let noise_std : Fin S → ℚ :=
    fun j => alpha / 100 * npMax (List.ofFn fun i : Fin T => sol i j)
  let sampled := multivariate_normal_diag (fun _ => 0) noise_std T rng
  let nsol : Fin T → Fin S → ℚ := fun i j => sol i j + sampled.1 i j
  let reaction_rateRT : Fin R → Fin T → ℚ :=
    fun j t => e.ratelaws j (fun i => nsol t i / e.V (time t))
  let flow_rate : Fin T → Fin S → ℚ :=
    fun t i => (∑ j, e.N.transpose i j * reaction_rateRT j t) * e.V (time t)
  let xr : Fin T → Fin Ks → ℚ := fun t k => ∑ i, nsol t i * S0T k i
  let xin : Fin T → Fin Km → ℚ := fun t k => ∑ i, nsol t i * M0T k i
  let lamda : Fin T → Fin Kq → ℚ := fun t k => ∑ i, nsol t i * q0T k i
  ({ moles := nsol
     reaction_rate := fun t j => reaction_rateRT j t
     flow_rate := flow_rate
     xr := xr
     xin := xin
     xout := fun t k => 1 - lamda t k }, sampled.2)

/-- C4: when `alpha = 0` the injected noise is exactly zero, so the
results bundle of `run_simulation` (its mole trajectory included) is the
same whatever the random-number-generator state: two calls with identical
inputs and time grid return identical trajectories. -/
theorem run_simulation_deterministic_alpha0 {S R P T Kq Ks Km : ℕ}
    (e : Engine S R P)
    (odeint : ((Fin S → ℚ) → ℚ → (Fin S → ℚ)) → (Fin S → ℚ) →
      (Fin T → ℚ) → (Fin T → Fin S → ℚ))
    (q0T : Matrix (Fin Kq) (Fin S) ℚ) (S0T : Matrix (Fin Ks) (Fin S) ℚ)
    (M0T : Matrix (Fin Km) (Fin S) ℚ) (time : Fin T → ℚ)
    (rng₁ rng₂ : RandState) :
    (run_simulation e odeint q0T S0T M0T time 0 rng₁).1
      = (run_simulation e odeint q0T S0T M0T time 0 rng₂).1 := by
  simp [run_simulation, multivariate_normal_diag]

/-- C5: in the results mapping of `run_simulation`, the entry under
`xout` equals `1 − lamda` elementwise at every timestep, where `lamda`
is the noisy mole trajectory (the `moles` entry) projected through the
decomposition matrix `q0ᵗ` (`lamda = sol @ q0T.T`). -/
theorem run_simulation_xout_eq_one_sub_lamda {S R P T Kq Ks Km : ℕ}
    (e : Engine S R P)
    (odeint : ((Fin S → ℚ) → ℚ → (Fin S → ℚ)) → (Fin S → ℚ) →
      (Fin T → ℚ) → (Fin T → Fin S → ℚ))
    (q0T : Matrix (Fin Kq) (Fin S) ℚ) (S0T : Matrix (Fin Ks) (Fin S) ℚ)
    (M0T : Matrix (Fin Km) (Fin S) ℚ) (time : Fin T → ℚ) (alpha : ℚ)
    (rng : RandState) :
    (run_simulation e odeint q0T S0T M0T time alpha rng).1.xout
      = fun t k => 1 - ∑ i,
          (run_simulation e odeint q0T S0T M0T time alpha rng).1.moles t i
            * q0T k i := rfl

/-- C8: the `reaction_rate` trajectory returned by `run_simulation` is
each bound rate law evaluated at the noisy trajectory's implied
concentration `sol / V(time)` (noise already injected, via the `moles`
entry), and `flow_rate` equals `Nᵗ · reaction_rate · V(time)` transposed
to timesteps × S. -/
theorem run_simulation_rates_from_noisy {S R P T Kq Ks Km : ℕ}
    (e : Engine S R P)
    (odeint : ((Fin S → ℚ) → ℚ → (Fin S → ℚ)) → (Fin S → ℚ) →
      (Fin T → ℚ) → (Fin T → Fin S → ℚ))
    (q0T : Matrix (Fin Kq) (Fin S) ℚ) (S0T : Matrix (Fin Ks) (Fin S) ℚ)
    (M0T : Matrix (Fin Km) (Fin S) ℚ) (time : Fin T → ℚ) (alpha : ℚ)
    (rng : RandState) :
    ((run_simulation e odeint q0T S0T M0T time alpha rng).1.reaction_rate
        = fun t j => e.ratelaws j (fun i =>
            (run_simulation e odeint q0T S0T M0T time alpha rng).1.moles t i
              / e.V (time t)))
    ∧ ((run_simulation e odeint q0T S0T M0T time alpha rng).1.flow_rate
        = fun t i => (∑ j, e.N.transpose i j *
            (run_simulation e odeint q0T S0T M0T time alpha rng).1.reaction_rate t j)
          * e.V (time t)) :=
  ⟨rfl, rfl⟩

/-- C10: every `run_simulation` call invokes the multivariate-normal
sampler exactly once, unconditionally — for every `alpha`, the value 0
included — so the returned generator state has consumed exactly one more
sampler invocation than the incoming one, with the draw stream itself
unchanged. -/
theorem run_simulation_advances_rng {S R P T Kq Ks Km : ℕ}
    (e : Engine S R P)
    (odeint : ((Fin S → ℚ) → ℚ → (Fin S → ℚ)) → (Fin S → ℚ) →
      (Fin T → ℚ) → (Fin T → Fin S → ℚ))
    (q0T : Matrix (Fin Kq) (Fin S) ℚ) (S0T : Matrix (Fin Ks) (Fin S) ℚ)
    (M0T : Matrix (Fin Km) (Fin S) ℚ) (time : Fin T → ℚ) (alpha : ℚ)
    (rng : RandState) :
    (run_simulation e odeint q0T S0T M0T time alpha rng).2
      = { counter := rng.counter + 1, draws := rng.draws } := rfl

/-- An untyped numpy array value as seen by the construction-time shape
checks: either 1-D or 2-D over ℚ. -/
inductive Arr where
  | v : List ℚ → Arr
  | m : List (List ℚ) → Arr

/-- Shape `a.shape` of an array value (the second axis of a 2-D array read off
its first row, as numpy arrays are rectangular). -/
def arrShape : Arr → List ℕ
  | .v l => [l.length]
  | .m rows => [rows.length, (rows.headD []).length]

/-- Modelled from the spec: `DataTools.add_stoichiometry_data`
(`datatools.py`, not under `src/`) stores `N` and exposes `self.S`, the
species count — the species axis of the stoichiometric data. -/
def speciesCount (N : Arr) : ℕ := (arrShape N).headD 0

/-- Modelled from the spec: `DataTools.add_Winhat_data` exposes `self.P`,
the inlet-stream count — the stream axis of `Winhat` (S × P); a 1-D
`Winhat` is a single stream. -/
def streamCount : Arr → ℕ
  | .v _ => 1
  | .m rows => (rows.headD []).length

/-- Dot product of two rational lists (numpy's row-by-vector product). -/
def dotL (xs ys : List ℚ) : ℚ := ((xs.zip ys).map fun p => p.1 * p.2).sum

/-- Column count of a 2-D array value. -/
def ncols (rows : List (List ℚ)) : ℕ := (rows.headD []).length

/-- Column `j` of a 2-D array value. -/
def colOf (rows : List (List ℚ)) (j : ℕ) : List ℚ := rows.map fun r => r.getD j 0

/-- numpy's `@` with a 2-D left operand: against a 2-D right operand it
yields a 2-D result (rows × columns); against a 1-D right operand it
contracts to a 1-D result. -/
def matmulArr (A : List (List ℚ)) : Arr → Arr
  | .v x => .v (A.map fun r => dotL r x)
  | .m B => .m (A.map fun r => (List.range (ncols B)).map fun j => dotL r (colOf B j))

/-- Model of `np.reshape(w, (w.shape[0], 1))`: a 1-D array becomes a column
matrix (2-D input is returned unchanged). -/
def reshape_to_col : Arr → Arr
  | .v l => .m (l.map fun q => [q])
  | .m rows => .m rows

/-- Model of `np.sum` over all entries of an array value. -/
def npSum : Arr → ℚ
  | .v l => l.sum
  | .m rows => (rows.map List.sum).sum

/-- Lines 65–67 of the source: `Win = np.linalg.pinv(Mw) @ Winhat`, and
if the product collapsed to one dimension it is reshaped to a column
matrix. `pinvA` stands for numpy's `np.linalg.pinv`. -/
def winFrom (pinvA : List (List ℚ) → List (List ℚ))
    (Mw : List (List ℚ)) (Winhat : Arr) : Arr :=
  let W0 := matmulArr (pinvA Mw) Winhat
  if (arrShape W0).length = 1 then reshape_to_col W0 else W0

/-- The outcomes of the raise sites of `Simulate.__init__`, one
constructor per site. `uinCheckAttributeError` is the outcome of the
`uin` check (line 53): its raise formats `self.uin.shape` (an
interpolation callable without that attribute) and `self.Win.shape`
(`self.Win` is first assigned only at line 65, after all checks), so the
message formatting itself fails with an `AttributeError` carrying no
shape information. -/
inductive InitError where
  | configurationError (msg : String)
  | mwDimensionMismatch (mwShape nShape : List ℕ)
  | winhatDimensionMismatch (winhatShape nShape : List ℕ)
  | uinCheckAttributeError
  | n0DimensionMismatch (required received : ℕ)
deriving DecidableEq

/-- The fields a successful `Simulate.__init__` leaves on the instance
(the time functions `V`, `uin`, `uout` as the interpolation callables the
spec describes, `Win` as derived at construction, `m0` the initial
mass). -/
structure InitState where
  S : ℕ
  P : ℕ
  N : Arr
  Mw : List (List ℚ)
  Winhat : Arr
  V : ℚ → ℚ
  uin : ℚ → List ℚ
  uout : ℚ → ℚ
  n0 : List ℚ
  Win : Arr
  m0 : ℚ

/-- The arguments of `Simulate.__init__` (after the configuration bundle
has been resolved to explicit `V`, `Winhat`, `uin`, `uout`; `Mw` is the
2-D molecular-weight matrix of the spec). The time-function arguments
stand for the interpolation callables `add_reactor_config` returns. -/
structure InitInput where
  N : Arr
  Mw : List (List ℚ)
  V : ℚ → ℚ
  Winhat : Arr
  uin : ℚ → List ℚ
  uout : ℚ → ℚ
  n0 : Option (List ℚ)

/-- Embedding of `Simulate.__init__`, staged as in the source: the `n0 is None` guard;
`add_stoichiometry_data` (exposes `S`); `add_molweight_data` and its
shape check; `add_reactor_config`/`add_volume_data` (no shape checks);
`add_Winhat_data` (exposes `P`) and its shape check; `add_uin_data` and
its stream-count check (whose raise dies in an `AttributeError`, see
`InitError`); `add_uout_data` (no check); `add_n0_data` and its check;
then `Win = pinv(Mw) @ Winhat` with the reshape-to-2-D fallback, and
`m0 = np.sum(Mw @ n0)`. numpy's `np.linalg.pinv` is the external
parameter `pinvA`. -/
def simulateInit (pinvA : List (List ℚ) → List (List ℚ))
    (inp : InitInput) : Except InitError InitState :=
  match inp.n0 with
  | none => .error (.configurationError "n0 cannot be None")
  | some n0 =>
    let S := speciesCount inp.N
    if inp.Mw.length ≠ S then
      .error (.mwDimensionMismatch [inp.Mw.length, ncols inp.Mw] (arrShape inp.N))
    else
      let P := streamCount inp.Winhat
      if (arrShape inp.Winhat).headD 0 ≠ S then
        .error (.winhatDimensionMismatch (arrShape inp.Winhat) (arrShape inp.N))
      else if (inp.uin 0).length ≠ P then
        .error .uinCheckAttributeError
      else if n0.length ≠ S then
        .error (.n0DimensionMismatch S n0.length)
      else
        .ok { S := S, P := P, N := inp.N, Mw := inp.Mw, Winhat := inp.Winhat,
              V := inp.V, uin := inp.uin, uout := inp.uout, n0 := n0,
              Win := winFrom pinvA inp.Mw inp.Winhat,
              m0 := npSum (matmulArr inp.Mw (.v n0)) }

/-- C6: constructing with `n0 = None` always fails with the
configuration error, whatever the other arguments. -/
theorem init_n0_none_configurationError
    (pinvA : List (List ℚ) → List (List ℚ)) (N : Arr)
    (Mw : List (List ℚ)) (V : ℚ → ℚ) (Winhat : Arr) (uin : ℚ → List ℚ)
    (uout : ℚ → ℚ) :
    simulateInit pinvA
        { N := N, Mw := Mw, V := V, Winhat := Winhat, uin := uin,
          uout := uout, n0 := none }
      = .error (.configurationError "n0 cannot be None") := rfl

/-- The validation stages of `Simulate.__init__`, in source order. -/
inductive Stage where
  | n0Missing
  | mwCheck
  | winhatCheck
  | uinCheck
  | n0Check
deriving DecidableEq

/-- The stage at which each raise site of `Simulate.__init__` sits. -/
def stageOf : InitError → Stage
  | .configurationError _ => .n0Missing
  | .mwDimensionMismatch _ _ => .mwCheck
  | .winhatDimensionMismatch _ _ => .winhatCheck
  | .uinCheckAttributeError => .uinCheck
  | .n0DimensionMismatch _ _ => .n0Check

/-- The stage of the error of a construction outcome, if any. -/
def errStage : Except InitError InitState → Option Stage
  | .error e => some (stageOf e)
  | .ok _ => none

/-- The first violated invariant of a construction input, walking the
spec's stated order: n0 present; Mw's species count; Winhat's species
count; uin's stream count at t = 0; n0's species count. -/
def firstViolation (inp : InitInput) : Option Stage :=
  match inp.n0 with
  | none => some .n0Missing
  | some n0 =>
    let S := speciesCount inp.N
    let P := streamCount inp.Winhat
    if inp.Mw.length ≠ S then some .mwCheck
    else if (arrShape inp.Winhat).headD 0 ≠ S then some .winhatCheck
    else if (inp.uin 0).length ≠ P then some .uinCheck
    else if n0.length ≠ S then some .n0Check
    else none

/-- C7: construction validation is staged in the fixed source order, each
check immediately after its field is set; for every input, construction
raises exactly at the first violated invariant in that order (and only
reports that one), and succeeds when none is violated. -/
theorem init_first_violation (pinvA : List (List ℚ) → List (List ℚ))
    (inp : InitInput) :
    errStage (simulateInit pinvA inp) = firstViolation inp := by
  rcases inp with ⟨N, Mw, V, Winhat, uin, uout, n0⟩
  cases n0 with
  | none => rfl
  | some l =>
    simp only [simulateInit, firstViolation]
    split_ifs <;> rfl

/-- The failing input for C2: a one-species, one-reaction, one-stream
system whose `uin(0)` has two entries — every check before the `uin`
stream-count check passes, and that check fails. -/
def c2Input : InitInput where
  N := .m [[-1]]
  Mw := [[1]]
  V := fun _ => 1
  Winhat := .m [[0]]
  uin := fun _ => [0, 0]
  uout := fun _ => 0
  n0 := some [1]

/-- C2 (code bug): at `c2Input` the stream-count mismatch is detected at
the right stage, but the construction outcome is the `AttributeError` of
the raise statement itself — `self.Win` is only assigned after all the
checks — not a dimension-mismatch error carrying the offending shapes. -/
theorem init_uin_mismatch_attribute_error :
    simulateInit (fun M => M) c2Input = .error .uinCheckAttributeError
    ∧ errStage (simulateInit (fun M => M) c2Input) = some .uinCheck :=
  ⟨rfl, rfl⟩

/-- C3: every successful construction stores
`Win = pinv(Mw) @ Winhat` (with the 1-D product reshaped to a column
matrix), and — under numpy's shape contract for the pseudo-inverse of the
S × S weight matrix, with at least one species — the stored `Win` is
always a 2-D matrix of shape (S, P), even when P = 1. -/
theorem init_win_shape (pinvA : List (List ℚ) → List (List ℚ))
    (inp : InitInput) (st : InitState)
    (h : simulateInit pinvA inp = .ok st)
    (hpinv : (pinvA inp.Mw).length = speciesCount inp.N)
    (hS : 0 < speciesCount inp.N) :
    st.Win = winFrom pinvA inp.Mw inp.Winhat
    ∧ arrShape st.Win = [speciesCount inp.N, streamCount inp.Winhat] := by
  rcases inp with ⟨N, Mw, V, Winhat, uin, uout, n0⟩
  dsimp only at hpinv hS ⊢
  cases n0 with
  | none => exact absurd h (by simp [simulateInit])
  | some l =>
    simp only [simulateInit] at h
    split_ifs at h with h1 h2 h3 h4
    · rw [Except.ok.injEq] at h
      subst h
      refine ⟨rfl, ?_⟩
      obtain ⟨a, as, hA⟩ : ∃ a as, pinvA Mw = a :: as := by
        cases hA : pinvA Mw with
        | nil => rw [hA] at hpinv; simp at hpinv; omega
        | cons a as => exact ⟨a, as, rfl⟩
      rw [hA] at hpinv
      simp only [List.length_cons] at hpinv
      cases Winhat with
      | v x =>
        simp [winFrom, hA, matmulArr, arrShape, reshape_to_col,
          streamCount, ← hpinv]
      | m B =>
        simp [winFrom, hA, matmulArr, arrShape, streamCount, ncols,
          ← hpinv]

/-- The input for the C3 witness: a valid one-species system whose
`Winhat` is supplied as a 1-D vector, so P = 1 and the pseudo-inverse
product collapses to one dimension, exercising the reshape. -/
def c3Input : InitInput where
  N := .m [[-1]]
  Mw := [[1]]
  V := fun _ => 1
  Winhat := .v [2]
  uin := fun _ => [0]
  uout := fun _ => 0
  n0 := some [1]

/-- The engine state `simulateInit` builds from `c3Input` with the
identity standing in for the pseudo-inverse of `[[1]]`. -/
def c3State : InitState where
  S := 1
  P := 1
  N := .m [[-1]]
  Mw := [[1]]
  Winhat := .v [2]
  V := fun _ => 1
  uin := fun _ => [0]
  uout := fun _ => 0
  n0 := [1]
  Win := .m [[2]]
  m0 := 1

/-- Witness for C3 at `c3Input`: construction succeeds, and the stored
`Win` is the reshaped pseudo-inverse product, 2-D of shape (S, P) =
(1, 1). -/
theorem init_win_shape_witness :
    simulateInit (fun M => M) c3Input = .ok c3State
    ∧ (c3State.Win = winFrom (fun M => M) c3Input.Mw c3Input.Winhat
      ∧ arrShape c3State.Win
          = [speciesCount c3Input.N, streamCount c3Input.Winhat]) := by
  have h : simulateInit (fun M => M) c3Input = .ok c3State := by
    simp only [simulateInit, c3Input, c3State, speciesCount, streamCount,
      arrShape, winFrom, matmulArr, reshape_to_col, npSum, dotL]
    norm_num
  exact ⟨h, init_win_shape (fun M => M) c3Input c3State h rfl (by decide)⟩

end PyKineMod
